import Mathlib

set_option maxRecDepth 4000

/-!
# Verification of the LinkedIn Connection Manager core

Shallow embedding of the core subsystem of `src/background.js` (with
`src/lib/linkedin-api.js` as a secondary reference for the shared parser
code): the multi-strategy response parser, the endpoint discoverer, the
paginator, the removal strategy set, and the rate-limited bulk scheduler.

JavaScript values flowing through the response parser are modelled by an
inductive `Json` type.  JavaScript member access, truthiness, string
coercion and thrown `TypeError`s are modelled explicitly; a thrown
exception is an `Except.error`.  Randomized sleep durations are not
observable (they produce no progress events and change no state), so the
delay-computation helpers (`addJitter`, `getItemDelay`, `getBatchPause`)
are not modelled beyond the decision of *which* kind of delay is taken.
The asynchronously-set cancellation flag `isCancelled` is monotone within
one bulk run (it is reset at entry and only ever set by the external
control message), so it is modelled by an optional time `cancelAt`: the flag reads
`true` at exactly the read points whose sequence number is `≥ cancelAt`.
-/

/-! ## JavaScript value model -/

inductive Json where
  | undefined
  | null
  | bool (b : Bool)
  | num (n : Int)
  | str (s : String)
  | arr (elems : List Json)
  | obj (fields : List (String × Json))
deriving Repr

/-- JavaScript strict equality `===` restricted to the JSON-like values the
parser actually compares (strings and other primitives; object identity is
approximated structurally — the parser only ever compares identifier
strings). -/
def Json.beq : Json → Json → Bool
  | .undefined, .undefined => true
  | .null, .null => true
  | .bool a, .bool b => a == b
  | .num a, .num b => a == b
  | .str a, .str b => a == b
  | .arr xs, .arr ys => beqList xs ys
  | .obj xs, .obj ys => beqFields xs ys
  | _, _ => false
where
  beqList : List Json → List Json → Bool
    | [], [] => true
    | x :: xs, y :: ys => Json.beq x y && beqList xs ys
    | _, _ => false
  beqFields : List (String × Json) → List (String × Json) → Bool
    | [], [] => true
    | (k, v) :: xs, (k2, v2) :: ys => k == k2 && Json.beq v v2 && beqFields xs ys
    | _, _ => false

/-- Model of a thrown JavaScript exception inside the parser. -/
inductive JsErr where
  | typeError
  | notIterable
  | notAFunction
deriving DecidableEq, Repr

/-- JavaScript truthiness. -/
def truthy : Json → Bool
  | .undefined => false
  | .null => false
  | .bool b => b
  | .num n => n != 0
  | .str s => s ≠ ""
  | .arr _ => true
  | .obj _ => true

/-- JavaScript `a || b`. -/
def jsOr (a b : Json) : Json := if truthy a then a else b

/-- First binding of a key in an object literal's field list. -/
def findField : List (String × Json) → String → Json
  | [], _ => .undefined
  | (k2, v) :: rest, k => if k2 = k then v else findField rest k

/-- JavaScript member access `j[k]`: throws `TypeError` on `null` and
`undefined`, yields `undefined` on missing fields and on primitives. -/
def getField : Json → String → Except JsErr Json
  | .undefined, _ => .error .typeError
  | .null, _ => .error .typeError
  | .obj fields, k => .ok (findField fields k)
  | _, _ => .ok .undefined

/-- JavaScript optional chaining `j?.k`. -/
def optChain (j : Json) (k : String) : Json :=
  match j with
  | .undefined => .undefined
  | .null => .undefined
  | .obj fields => findField fields k
  | _ => .undefined

/-- JavaScript `for (const x of v)`: arrays iterate their elements, strings
iterate their characters, any other truthy value is not iterable and
throws.  (Falsy values never reach an iteration site in the parser: they
are replaced by `[]` via `|| []` first.) -/
def iterElems : Json → Except JsErr (List Json)
  | .arr xs => .ok xs
  | .str s => .ok (s.data.map (fun c => Json.str (String.mk [c])))
  | _ => .error .notIterable

mutual

/-- JavaScript string coercion, for the value shapes the parser coerces. -/
def jsToString : Json → String
  | .undefined => "undefined"
  | .null => "null"
  | .bool b => cond b "true" "false"
  | .num n => toString n
  | .str s => s
  | .arr xs => jsToStringList xs
  | .obj _ => "[object Object]"

/-- `Array.prototype.join(',')` as used by array-to-string coercion:
`null`/`undefined` elements contribute the empty string. -/
def jsToStringList : List Json → String
  | [] => ""
  | [.undefined] => ""
  | [.null] => ""
  | [x] => jsToString x
  | .undefined :: xs => "," ++ jsToStringList xs
  | .null :: xs => "," ++ jsToStringList xs
  | x :: xs => jsToString x ++ "," ++ jsToStringList xs

end

/-- Character-level lower-casing (a kernel-reducible `String.toLower`). -/
def strToLower (s : String) : String := String.mk (s.data.map Char.toLower)

/-- Whitespace trimming at both ends (a kernel-reducible `String.trim`). -/
def strTrim (s : String) : String :=
  String.mk (((s.data.dropWhile Char.isWhitespace).reverse.dropWhile Char.isWhitespace).reverse)

/-- JavaScript `.toLowerCase()`: defined on strings, throws on any other
(truthy) receiver. -/
def jsToLowerCase : Json → Except JsErr String
  | .str s => .ok (strToLower s)
  | _ => .error .notAFunction

/-- `pat` occurs at the start of `s` (character lists). -/
def charsStartWith : List Char → List Char → Bool
  | _, [] => true
  | [], _ :: _ => false
  | a :: as, b :: bs => a == b && charsStartWith as bs

/-- `pat` occurs somewhere in `s` (character lists). -/
def charsHasSub (pat : List Char) : List Char → Bool
  | [] => pat.isEmpty
  | a :: as => charsStartWith (a :: as) pat || charsHasSub pat as

/-- JavaScript `s.includes(pat)`. -/
def strHasSub (s pat : String) : Bool := charsHasSub pat.data s.data

/-! ## ContactRecord and the response parser (src/background.js lines 145-338) -/

/-- The normalized contact record built by the parse strategies.  Fields
that the JavaScript code stores as raw (possibly coerced) values are
`Json`; fields always produced by string templates are `String`.
Properties that a strategy does not set are `undefined`. -/
structure Contact where
  firstName : Json
  lastName : Json
  name : String
  headline : Json
  publicIdentifier : Json
  profileUrl : String
  entityUrn : Json
  connectionUrn : Json := Json.undefined
  connectedAt : Json := Json.undefined
  profilePicture : String
deriving Repr

/-- `extractProfilePicture` (lines 322-338): resolves a concrete image URL
from a VectorImage-shaped sub-object; its whole body is wrapped in
`try/catch`, so the model catches every inner throw and yields `""`. -/
def extractProfilePicture (entity : Json) : String :=
  match go with
  | .ok s => s
  | .error _ => ""
where
  go : Except JsErr String := do
    let p1 ← getField entity "picture"
    let p2 ← getField entity "profilePicture"
    let p3 ← getField entity "image"
    let pictures := jsOr (jsOr p1 p2) p3
    if truthy pictures = false then return ""
    let vi ← getField pictures "com.linkedin.common.VectorImage"
    let vectorImage := jsOr vi pictures
    let artifacts := jsOr (optChain vectorImage "artifacts") (.arr [])
    let rootUrl := jsOr (optChain vectorImage "rootUrl") (.str "")
    let lenPos : Bool :=
      match artifacts with
      | .arr xs => xs.length > 0
      | .str s => s.length > 0
      | _ => false
    if lenPos && truthy rootUrl then
      let first : Json :=
        match artifacts with
        | .arr (x :: _) => x
        | .str s => (match s.data with
                     | c :: _ => .str (String.mk [c])
                     | [] => .undefined)
        | _ => .undefined
      let seg ← getField first "fileIdentifyingUrlPathSegment"
      return jsToString rootUrl ++ jsToString (jsOr seg (.str ""))
    if let .str s := pictures then return s
    return ""

/-- `extractMemberUrn` (lines 312-320). -/
def extractMemberUrn (entity : Json) : Except JsErr Json :=
  go ["connectedMember", "connectedMemberResolutionResult", "*connectedMember",
      "member", "*member", "miniProfile", "*miniProfile"]
where
  go : List String → Except JsErr Json
    | [] => .ok .null
    | f :: fs => do
      let val ← getField entity f
      if truthy val = false then go fs
      else
        match val with
        | .str _ => .ok val
        | .obj _ => do
            let u ← getField val "entityUrn"
            if truthy u then .ok u else go fs
        | .arr _ => do
            let u ← getField val "entityUrn"
            if truthy u then .ok u else go fs
        | _ => go fs

/-- The profile record pushed by strategy 1 (lines 184-195). -/
def mkProfileContact (entity : Json) : Except JsErr Contact := do
  let fn ← getField entity "firstName"
  let ln ← getField entity "lastName"
  let occ ← getField entity "occupation"
  let hl ← getField entity "headline"
  let pub ← getField entity "publicIdentifier"
  let urn ← getField entity "entityUrn"
  return {
    firstName := jsOr fn (.str "")
    lastName := jsOr ln (.str "")
    name := strTrim (jsToString (jsOr fn (.str "")) ++ " " ++ jsToString (jsOr ln (.str "")))
    headline := jsOr (jsOr occ hl) (.str "")
    publicIdentifier := jsOr pub (.str "")
    profileUrl := if truthy pub then "https://www.linkedin.com/in/" ++ jsToString pub ++ "/" else ""
    entityUrn := jsOr urn (.str "")
    profilePicture := extractProfilePicture entity }

/-- The in-place join mutation of strategy 1 (lines 206-214): set
`connectionUrn`/`connectedAt` on the first profile whose `entityUrn`
strictly equals `memberUrn`. -/
def updateFirstContact : List Contact → Json → Json → Json → List Contact
  | [], _, _, _ => []
  | p :: ps, urn, cu, ca =>
    if Json.beq p.entityUrn urn then { p with connectionUrn := cu, connectedAt := ca } :: ps
    else p :: updateFirstContact ps urn cu ca

/-- Strategy 1, `tryParseMiniProfiles` (lines 175-222). -/
def tryParseMiniProfiles (inc : List Json) : Except JsErr (List Contact) := do
  let mut profiles : List Contact := []
  let mut connectionEntities : List Json := []
  for entity in inc do
    let r ← getField entity "$recipeType"
    let t ← getField entity "$type"
    let ty ← jsToLowerCase (jsOr (jsOr r t) (.str ""))
    if strHasSub ty "miniprofile" || strHasSub ty "profile" then
      let fn ← getField entity "firstName"
      let ln ← getField entity "lastName"
      if truthy fn || truthy ln then
        let p ← mkProfileContact entity
        profiles := profiles ++ [p]
    let cm ← getField entity "connectedMember"
    let cmr ← getField entity "connectedMemberResolutionResult"
    if strHasSub ty "connection" || truthy cm || truthy cmr then
      connectionEntities := connectionEntities ++ [entity]
  for connEntity in connectionEntities do
    let memberUrn ← extractMemberUrn connEntity
    if truthy memberUrn then
      let cu ← getField connEntity "entityUrn"
      let ca ← getField connEntity "createdAt"
      profiles := updateFirstContact profiles memberUrn (jsOr cu (.str "")) (jsOr ca .null)
  let matched := profiles.filter (fun p => truthy p.connectionUrn)
  if matched.length == 0 && profiles.length > 0 then
    return profiles.map (fun p => { p with connectionUrn := jsOr p.connectionUrn p.entityUrn })
  return matched

/-- The record pushed by strategy 2 (lines 224-245 of background.js; note
`entityUrn` and `connectionUrn` are stored raw there, without `|| ''`). -/
def mkNameFieldContact (entity : Json) : Except JsErr Contact := do
  let fn ← getField entity "firstName"
  let ln ← getField entity "lastName"
  let occ ← getField entity "occupation"
  let hl ← getField entity "headline"
  let ti ← getField entity "title"
  let pub ← getField entity "publicIdentifier"
  let urn ← getField entity "entityUrn"
  let ca ← getField entity "createdAt"
  return {
    firstName := jsOr fn (.str "")
    lastName := jsOr ln (.str "")
    name := strTrim (jsToString (jsOr fn (.str "")) ++ " " ++ jsToString (jsOr ln (.str "")))
    headline := jsOr (jsOr (jsOr occ hl) ti) (.str "")
    publicIdentifier := jsOr pub (.str "")
    profileUrl := if truthy pub then "https://www.linkedin.com/in/" ++ jsToString pub ++ "/" else ""
    entityUrn := urn
    connectionUrn := urn
    connectedAt := jsOr ca .null
    profilePicture := extractProfilePicture entity }

/-- Strategy 2, `tryParseByNameFields` (lines 224-245): any entity with a
first/last name and an unseen `entityUrn` becomes a contact. -/
def tryParseByNameFields (inc : List Json) : Except JsErr (List Contact) := do
  let mut connections : List Contact := []
  let mut seen : List Json := []
  for entity in inc do
    let fn ← getField entity "firstName"
    let ln ← getField entity "lastName"
    if truthy fn = false && truthy ln = false then
      continue
    let urn ← getField entity "entityUrn"
    if truthy urn = false || seen.any (fun u => Json.beq u urn) then
      continue
    seen := seen ++ [urn]
    let c ← mkNameFieldContact entity
    connections := connections ++ [c]
  return connections

/-- `Map.set` with SameValueZero key equality (last set wins). -/
def mapSet : List (Json × Json) → Json → Json → List (Json × Json)
  | [], k, v => [(k, v)]
  | (k2, v2) :: rest, k, v =>
    if Json.beq k2 k then (k, v) :: rest else (k2, v2) :: mapSet rest k v

/-- `Map.get`. -/
def mapGet : List (Json × Json) → Json → Option Json
  | [], _ => none
  | (k2, v2) :: rest, k => if Json.beq k2 k then some v2 else mapGet rest k

/-- The record pushed by the string-element branch of strategy 3
(lines 255-270). -/
def mkElemStringContact (entity : Json) : Except JsErr Contact := do
  let fn ← getField entity "firstName"
  let ln ← getField entity "lastName"
  let occ ← getField entity "occupation"
  let hl ← getField entity "headline"
  let pub ← getField entity "publicIdentifier"
  let urn ← getField entity "entityUrn"
  return {
    firstName := jsOr fn (.str "")
    lastName := jsOr ln (.str "")
    name := strTrim (jsToString (jsOr fn (.str "")) ++ " " ++ jsToString (jsOr ln (.str "")))
    headline := jsOr (jsOr occ hl) (.str "")
    publicIdentifier := jsOr pub (.str "")
    profileUrl := if truthy pub then "https://www.linkedin.com/in/" ++ jsToString pub ++ "/" else ""
    entityUrn := urn
    connectionUrn := urn
    profilePicture := extractProfilePicture entity }

/-- The record pushed by the member-reference branch of strategy 3
(lines 280-291): profile fields come from the resolved `included` entity,
`connectionUrn` prefers `elem.entityUrn`, `connectedAt` comes from the
element. -/
def mkElemProfileContact (profile elem : Json) : Except JsErr Contact := do
  let fn ← getField profile "firstName"
  let ln ← getField profile "lastName"
  let occ ← getField profile "occupation"
  let hl ← getField profile "headline"
  let pub ← getField profile "publicIdentifier"
  let purn ← getField profile "entityUrn"
  let eurn ← getField elem "entityUrn"
  let ca ← getField elem "createdAt"
  return {
    firstName := jsOr fn (.str "")
    lastName := jsOr ln (.str "")
    name := strTrim (jsToString (jsOr fn (.str "")) ++ " " ++ jsToString (jsOr ln (.str "")))
    headline := jsOr (jsOr occ hl) (.str "")
    publicIdentifier := jsOr pub (.str "")
    profileUrl := if truthy pub then "https://www.linkedin.com/in/" ++ jsToString pub ++ "/" else ""
    entityUrn := jsOr purn (.str "")
    connectionUrn := jsOr eurn (jsOr purn (.str ""))
    connectedAt := jsOr ca .null
    profilePicture := extractProfilePicture profile }

/-- The record pushed by the inline-profile branch of strategy 3
(lines 294-306): all fields come from the element itself. -/
def mkElemSelfContact (elem : Json) : Except JsErr Contact := do
  let fn ← getField elem "firstName"
  let ln ← getField elem "lastName"
  let occ ← getField elem "occupation"
  let hl ← getField elem "headline"
  let pub ← getField elem "publicIdentifier"
  let urn ← getField elem "entityUrn"
  return {
    firstName := jsOr fn (.str "")
    lastName := jsOr ln (.str "")
    name := strTrim (jsToString (jsOr fn (.str "")) ++ " " ++ jsToString (jsOr ln (.str "")))
    headline := jsOr (jsOr occ hl) (.str "")
    publicIdentifier := jsOr pub (.str "")
    profileUrl := if truthy pub then "https://www.linkedin.com/in/" ++ jsToString pub ++ "/" else ""
    entityUrn := jsOr urn (.str "")
    connectionUrn := jsOr urn (.str "")
    profilePicture := extractProfilePicture elem }

/-- The chain `elem.connectedMember || elem.connectedMemberResolutionResult
|| elem['*connectedMember'] || elem.member || elem['*member']` of
strategy 3 (lines 274-275). -/
def elemMemberRef (elem : Json) : Except JsErr Json := do
  let m1 ← getField elem "connectedMember"
  let m2 ← getField elem "connectedMemberResolutionResult"
  let m3 ← getField elem "*connectedMember"
  let m4 ← getField elem "member"
  let m5 ← getField elem "*member"
  return jsOr (jsOr (jsOr (jsOr m1 m2) m3) m4) m5

/-- `typeof memberRef === 'string' ? memberRef : memberRef.entityUrn`
(line 277); `memberRef` is truthy at this point, so the member access
cannot throw. -/
def memberUrnOf (mr : Json) : Except JsErr Json :=
  match mr with
  | .str _ => .ok mr
  | _ => getField mr "entityUrn"

/-- The `typeof elem === 'object' && elem !== null` branch of strategy 3
(lines 273-307); in JavaScript arrays also enter this branch.  The two
`connections.push` sites append in source order: the member-reference
record first, then the inline-profile record. -/
def elementObjContacts (entityMap : List (Json × Json)) (elem : Json) :
    Except JsErr (List Contact) := do
  let mr ← elemMemberRef elem
  let fromRef ←
    if truthy mr then do
      let memberUrn ← memberUrnOf mr
      match mapGet entityMap memberUrn with
      | some profile => do
        let c ← mkElemProfileContact profile elem
        pure [c]
      | none => pure ([] : List Contact)
    else pure ([] : List Contact)
  let fn ← getField elem "firstName"
  let ln ← getField elem "lastName"
  if truthy fn || truthy ln then
    let c ← mkElemSelfContact elem
    return fromRef ++ [c]
  return fromRef

/-- The contacts contributed by one element of strategy 3 (the body of the
`for (const elem of elements)` loop, lines 254-307).  An element object
whose member reference resolves AND that itself carries a name pushes one
record from each of the two branches. -/
def elementContacts (entityMap : List (Json × Json)) (elem : Json) :
    Except JsErr (List Contact) := do
  match elem with
  | .str _ =>
    match mapGet entityMap elem with
    | some entity => do
      let fn ← getField entity "firstName"
      let ln ← getField entity "lastName"
      if truthy fn || truthy ln then
        let c ← mkElemStringContact entity
        return [c]
      return []
    | none => return []
  | .obj _ => elementObjContacts entityMap elem
  | .arr _ => elementObjContacts entityMap elem
  | _ => return []

/-- Strategy 3, `tryParseElements` (lines 247-310). -/
def tryParseElements (elements : List Json) (inc : List Json) :
    Except JsErr (List Contact) := do
  let mut entityMap : List (Json × Json) := []
  for entity in inc do
    let u ← getField entity "entityUrn"
    if truthy u then entityMap := mapSet entityMap u entity
  let mut connections : List Contact := []
  for elem in elements do
    let cs ← elementContacts entityMap elem
    connections := connections ++ cs
  return connections

/-- `parseConnectionsResponse` (lines 145-173): the ordered fallback chain.
The diagnostic loop over `included` (lines 152-155) performs member
accesses whose `TypeError`s propagate, exactly as in the source. -/
def parseConnectionsResponse (json : Json) : Except JsErr (List Contact) := do
  let inclV ← getField json "included"
  let included := jsOr inclV (.arr [])
  let dataV ← getField json "data"
  let e2 ← getField json "elements"
  let elements := jsOr (jsOr (jsOr (optChain dataV "elements") e2) (optChain dataV "*elements")) (.arr [])
  let inc ← iterElems included
  for entity in inc do
    let _ ← getField entity "$recipeType"
    let _ ← getField entity "$type"
  let c1 ← tryParseMiniProfiles inc
  if c1.length > 0 then return c1
  let c2 ← tryParseByNameFields inc
  if c2.length > 0 then return c2
  let elemsList ← iterElems elements
  let c3 ← tryParseElements elemsList inc
  if c3.length > 0 then return c3
  return []

/-! ## Endpoint catalog and discovery (src/background.js lines 17-66, 344-394) -/

structure EPConfig where
  name : String
  url : String
  params : List (String × String)
deriving DecidableEq, Repr

def BASE_URL : String := "https://www.linkedin.com"

def PAGE_SIZE : Nat := 40

/-- The endpoint catalog `ENDPOINT_CONFIGS` (lines 17-66). -/
def ENDPOINT_CONFIGS : List EPConfig := [
  { name := "dash-v17"
    url := BASE_URL ++ "/voyager/api/relationships/dash/connections"
    params := [("decorationId", "com.linkedin.voyager.dash.deco.web.mynetwork.ConnectionList-17"),
               ("count", "40"), ("q", "search"), ("sortType", "RECENTLY_ADDED")] },
  { name := "dash-v16"
    url := BASE_URL ++ "/voyager/api/relationships/dash/connections"
    params := [("decorationId", "com.linkedin.voyager.dash.deco.web.mynetwork.ConnectionList-16"),
               ("count", "40"), ("q", "search"), ("sortType", "RECENTLY_ADDED")] },
  { name := "dash-v15"
    url := BASE_URL ++ "/voyager/api/relationships/dash/connections"
    params := [("decorationId", "com.linkedin.voyager.dash.deco.web.mynetwork.ConnectionList-15"),
               ("count", "40"), ("q", "search"), ("sortType", "RECENTLY_ADDED")] },
  { name := "dash-no-decoration"
    url := BASE_URL ++ "/voyager/api/relationships/dash/connections"
    params := [("count", "40"), ("q", "search"), ("sortType", "RECENTLY_ADDED")] },
  { name := "legacy"
    url := BASE_URL ++ "/voyager/api/relationships/connections"
    params := [("count", "40"), ("q", "search"), ("sortType", "RECENTLY_ADDED")] }]

/-- Outcome of one `tryFetchWithConfig(config, start)` call, as seen by its
callers: an HTTP 2xx response yields the parsed record count and the
reported `paging.total`; a non-2xx, non-429 status makes the function
return `null`; HTTP 429 throws `RATE_LIMITED`; any other thrown error
(timeout, network) is `netFail`.  Records are abstracted to their count —
discovery and pagination read only `connections.length` from them. -/
inductive FetchOutcome where
  | ok (connections : Nat) (total : Nat)
  | httpFail
  | rateLimited
  | netFail
deriving DecidableEq, Repr

inductive DiscoverErr where
  | rateLimited
  | noWorkingEndpoint
deriving DecidableEq, Repr

/-- The discoverer's success predicate (line 379):
`result && (result.connections.length > 0 || result.total > 0)`. -/
def isWorkingOutcome : FetchOutcome → Bool
  | .ok n t => n > 0 || t > 0
  | _ => false

def isRateLimitedOutcome : FetchOutcome → Bool
  | .rateLimited => true
  | _ => false

/-- A candidate at which the discovery scan halts: either a working
endpoint (committed) or a 429 (propagated). -/
def discoverHit (oracle : EPConfig → FetchOutcome) (c : EPConfig) : Bool :=
  isWorkingOutcome (oracle c) || isRateLimitedOutcome (oracle c)

/-- `discoverEndpoint` (lines 375-394) over an arbitrary catalog, with the
page-zero response of each candidate given by `oracle`.  Also returns the
trace of candidates actually probed (requests actually issued), in
order. -/
def discoverGo (oracle : EPConfig → FetchOutcome) :
    List EPConfig → List String × Except DiscoverErr EPConfig
  | [] => ([], .error .noWorkingEndpoint)
  | c :: rest =>
    match oracle c with
    | .rateLimited => ([c.name], .error .rateLimited)
    | .ok n t =>
      if n > 0 || t > 0 then ([c.name], .ok c)
      else
        let (tr, r) := discoverGo oracle rest
        (c.name :: tr, r)
    | .httpFail =>
        let (tr, r) := discoverGo oracle rest
        (c.name :: tr, r)
    | .netFail =>
        let (tr, r) := discoverGo oracle rest
        (c.name :: tr, r)

/-- Two discovery invocations in sequence (cold, then warm) over the same
unchanging responses, threading the `workingConfig` memo (line 68) exactly
as the code does: `discoverEndpoint` never reads the memo and writes it
only on success (line 381).  Returns (first result, memo after first,
second result, memo after second). -/
def discoverTwice (oracle : EPConfig → FetchOutcome) (catalog : List EPConfig) :
    (List String × Except DiscoverErr EPConfig) × Option EPConfig ×
      (List String × Except DiscoverErr EPConfig) × Option EPConfig :=
  let r1 := discoverGo oracle catalog
  let m1 : Option EPConfig := match r1.2 with | .ok c => some c | .error _ => none
  let r2 := discoverGo oracle catalog
  let m2 : Option EPConfig := match r2.2 with | .ok c => some c | .error _ => m1
  (r1, m1, r2, m2)

/-! ## Paginator (src/background.js lines 396-472) -/

/-- Outcome of one in-loop `tryFetchWithConfig(workingConfig, start)` call. -/
inductive PageOutcome where
  | ok (count : Nat) (total : Nat)
  | nullResult
  | rateLimited
  | timeout
  | fetchErr
deriving DecidableEq, Repr

/-- State of the pagination loop: `fetched` is `allConnections.length`,
`events` the `sendProgress(fetched, total)` reports emitted so far. -/
structure PageState where
  fetched : Nat
  total : Nat
  start : Nat
  consecutiveEmpty : Nat
  events : List (Nat × Nat)
deriving DecidableEq, Repr

/-- The total-estimate update of one loop iteration (lines 428-435):
grow to a larger nonzero report, and replace an estimate that still equals
the 10000 placeholder by any nonzero report. -/
def updateTotal (total t : Nat) : Nat :=
  let t1 := if t > 0 && t > total then t else total
  if t > 0 && t1 == 10000 then t else t1

/-- The in-loop progress report (line 438):
`sendProgress(allConnections.length, total >= 10000 ? 0 : total)`. -/
def progressOf (fetched total : Nat) : Nat × Nat :=
  (fetched, if 10000 ≤ total then 0 else total)

/-- One successful-page iteration of the pagination loop (lines 424-449):
accumulate, advance the offset, update the estimate, report progress, and
decide whether to stop on a second consecutive empty page.  The returned
`Bool` is true iff the loop breaks. -/
def pageStep (s : PageState) (count t : Nat) : PageState × Bool :=
  let fetched := s.fetched + count
  let start := s.start + PAGE_SIZE
  let total := updateTotal s.total t
  let events := s.events ++ [progressOf fetched total]
  if count == 0 then
    let ce := s.consecutiveEmpty + 1
    ({ fetched, total, start, consecutiveEmpty := ce, events }, decide (2 ≤ ce))
  else
    ({ fetched, total, start, consecutiveEmpty := 0, events }, false)

/-- The `while (start < total)` pagination loop (lines 416-468), consuming
one fetch outcome per iteration: `RATE_LIMITED` and timeouts sleep and
retry the same offset, a `null` result or any other error breaks, a
successful page goes through `pageStep`.  An exhausted outcome list
returns the state reached so far (a trace prefix of the run). -/
def pageLoop : List PageOutcome → PageState → PageState
  | [], s => s
  | o :: rest, s =>
    if s.start < s.total then
      match o with
      | .rateLimited => pageLoop rest s
      | .timeout => pageLoop rest s
      | .nullResult => s
      | .fetchErr => s
      | .ok count t =>
        let (s2, stop) := pageStep s count t
        if stop then s2 else pageLoop rest s2
    else s

/-- The initial total estimate (line 402):
`firstPage.total > 0 ? firstPage.total : 10000`. -/
def initialTotal (firstTotal : Nat) : Nat :=
  if firstTotal > 0 then firstTotal else 10000

/-- The paginator state after the first (discovery) page, including the
first progress report (line 405), which sends the raw estimate. -/
def initialPageState (firstCount firstTotal : Nat) : PageState :=
  { fetched := firstCount
    total := initialTotal firstTotal
    start := PAGE_SIZE
    consecutiveEmpty := 0
    events := [(firstCount, initialTotal firstTotal)] }

/-- `fetchAllConnections` (lines 396-472) after discovery returned a first
page with `firstCount` records and reported total `firstTotal`: an empty
first page returns immediately (line 409), otherwise the pagination loop
runs. -/
def fetchAllConnections (firstCount firstTotal : Nat)
    (outcomes : List PageOutcome) : PageState :=
  let s0 := initialPageState firstCount firstTotal
  if firstCount == 0 then s0 else pageLoop outcomes s0

/-! ## Removal strategy set (src/background.js lines 474-559) -/

/-- A connection record as consumed by `removeConnection`: the code
normalizes the identifying fields with `|| ''`, so a missing field is the
empty (falsy) string. -/
structure RemovalRecord where
  name : String
  connectionUrn : String
  publicIdentifier : String
  entityUrn : String
deriving DecidableEq, Repr

/-- The five distinct mutation request shapes of `tryRemovalStrategy`
(lines 474-522), keyed by the identifier each one sends. -/
inductive RemovalRequest where
  | profileActionsDisconnect (publicId : String)
  | memberRelationshipsDeco (connectionUrn : String)
  | memberRelationships (connectionUrn : String)
  | connectionsRemoveAction (connectionUrn : String)
  | connectionsDelete (connectionUrn : String)
deriving DecidableEq, Repr

/-- `tryRemovalStrategy` (lines 474-522): `none` models the `return null`
taken when the record lacks the field the strategy requires — no request
is issued in that case. -/
def tryRemovalStrategy (stratNum : Nat) (conn : RemovalRecord) : Option RemovalRequest :=
  match stratNum with
  | 1 => if conn.publicIdentifier = "" then none
         else some (.profileActionsDisconnect conn.publicIdentifier)
  | 2 => if conn.connectionUrn = "" then none
         else some (.memberRelationshipsDeco conn.connectionUrn)
  | 3 => if conn.connectionUrn = "" then none
         else some (.memberRelationships conn.connectionUrn)
  | 4 => if conn.connectionUrn = "" || !strHasSub conn.connectionUrn "fsd_connection" then none
         else some (.connectionsRemoveAction conn.connectionUrn)
  | 5 => if conn.connectionUrn = "" then none
         else some (.connectionsDelete conn.connectionUrn)
  | _ => none

/-- Response to an issued removal request: an HTTP status (2xx is success,
`Response.ok`), or a thrown transport error. -/
inductive RespOutcome where
  | httpStatus (code : Nat)
  | netFail
deriving DecidableEq, Repr

inductive RemoveErr where
  | rateLimited
  | allStrategiesFailed (name : String)
deriving DecidableEq, Repr

def allStrategies : List Nat := [1, 2, 3, 4, 5]

/-- The adaptive strategy order of `removeConnection` (lines 534-537): the
memoized winning strategy first, then the remaining ones in fixed order. -/
def strategyOrder (cached : Option Nat) : List Nat :=
  match cached with
  | none => allStrategies
  | some w => w :: allStrategies.filter (fun s => s ≠ w)

/-- The strategy loop of `removeConnection` (lines 539-558): skip
non-applicable strategies, succeed on a 2xx, abort the whole removal on a
429, otherwise fall through to the next strategy; exhaustion fails with
`AllStrategiesFailed`.  Also returns the trace of requests actually
issued.  Success returns the winning strategy number (memoized by the
caller into `workingRemovalStrategy`). -/
def removeConnectionGo (responses : RemovalRequest → RespOutcome) (conn : RemovalRecord) :
    List Nat → List RemovalRequest × Except RemoveErr Nat
  | [] => ([], .error (.allStrategiesFailed conn.name))
  | s :: rest =>
    match tryRemovalStrategy s conn with
    | none => removeConnectionGo responses conn rest
    | some req =>
      match responses req with
      | .httpStatus code =>
        if 200 ≤ code && code < 300 then ([req], .ok s)
        else if code == 429 then ([req], .error .rateLimited)
        else
          let (tr, r) := removeConnectionGo responses conn rest
          (req :: tr, r)
      | .netFail =>
          let (tr, r) := removeConnectionGo responses conn rest
          (req :: tr, r)

/-- `removeConnection` (lines 524-559) with memoized strategy `cached` and
per-request responses `responses`. -/
def removeConnection (cached : Option Nat) (responses : RemovalRequest → RespOutcome)
    (conn : RemovalRecord) : List RemovalRequest × Except RemoveErr Nat :=
  removeConnectionGo responses conn (strategyOrder cached)

/-! ## Rate limiter / bulk scheduler (src/background.js lines 565-661)

`bulkRemove` observes the cancellation flag at four kinds of read points
per iteration: the top-of-loop check, the post-`waitWhilePaused` re-check,
the post-backoff check inside the rate-limit branch, and the
`i < length - 1 && !isCancelled` guard before the inter-item delay.  The
flag is monotone within a run, so an execution is characterized by which
reads observe `true`: read number `t` observes `true` iff `cancelAt ≤ t`.
`waitWhilePaused` itself emits no events and changes no counters, so a
pause only widens the window before its re-check; the per-item outcome of
each `removeConnection` call is supplied per item (`firstTry` for the
first attempt, `retryTry` for the single post-backoff retry). -/

/-- Outcome of one `removeConnection(conn)` call as seen by `bulkRemove`:
resolves, throws `RATE_LIMITED`, or throws any other error (including
`AllStrategiesFailed`) whose message is `reason`. -/
inductive RemoveResult where
  | ok
  | rateLimited
  | err (reason : String)
deriving DecidableEq, Repr

structure BulkItem where
  name : String
  firstTry : RemoveResult
  retryTry : RemoveResult
deriving DecidableEq, Repr

/-- The `status` strings of the `sendProgress` reports. -/
inductive BulkStatus where
  | removing
  | removed
  | rate_limited
  | failed
  | batch_pause
  | cancelled
  | done
deriving DecidableEq, Repr

/-- One `sendProgress(completed, total, currentItem, status)` report. -/
structure BulkEvent where
  completed : Nat
  total : Nat
  currentItem : Option String
  status : BulkStatus
deriving DecidableEq, Repr

structure BulkResult where
  completed : Nat
  failed : List (BulkItem × String)
  cancelled : Bool
deriving DecidableEq, Repr

/-- `RATE.batchSize` (line 79). The other `RATE` fields only shape sleep
durations, which are unobservable here. -/
def RATE_batchSize : Nat := 10

/-- Whether the cancellation flag reads `true` at read point `t`. -/
def cancelHit (cancelAt : Option Nat) (t : Nat) : Bool :=
  match cancelAt with
  | none => false
  | some c => c ≤ t

/-- Processing of one item inside the loop body (lines 618-646): the
`removing` report, the first `removeConnection` attempt, and on
`RATE_LIMITED` the backoff (whose post-sleep check is read point `t + 2`)
followed by at most one retry.  Returns the updated
(completed, failed, events, next read point). -/
def processItem (n : Nat) (cancelAt : Option Nat) (item : BulkItem)
    (completed : Nat) (failed : List (BulkItem × String)) (events : List BulkEvent)
    (t : Nat) : Nat × List (BulkItem × String) × List BulkEvent × Nat :=
  let events := events ++ [⟨completed, n, some item.name, .removing⟩]
  match item.firstTry with
  | .ok =>
      (completed + 1, failed,
       events ++ [⟨completed + 1, n, some item.name, .removed⟩], t + 2)
  | .err r =>
      (completed, failed ++ [(item, r)],
       events ++ [⟨completed, n, some item.name, .failed⟩], t + 2)
  | .rateLimited =>
      let events := events ++ [⟨completed, n, some item.name, .rate_limited⟩]
      if cancelHit cancelAt (t + 2) then
        (completed, failed, events, t + 3)
      else
        match item.retryTry with
        | .ok =>
            (completed + 1, failed,
             events ++ [⟨completed + 1, n, some item.name, .removed⟩], t + 3)
        | .rateLimited =>
            (completed, failed ++ [(item, "RATE_LIMITED")],
             events ++ [⟨completed, n, some item.name, .failed⟩], t + 3)
        | .err r =>
            (completed, failed ++ [(item, r)],
             events ++ [⟨completed, n, some item.name, .failed⟩], t + 3)

/-- The `for` loop of `bulkRemove` (lines 604-656): `i` is the index of the
current item, `t` the next cancellation read point.  Read `t` is the
top-of-loop check (line 605), read `t + 1` the post-pause re-check
(line 612); the inter-item guard (line 648) reads the flag once more, and
between items a `batch_pause` report is emitted when `(i+1)` is a multiple
of the batch size. -/
def bulkRemoveGo (n : Nat) (cancelAt : Option Nat) :
    List BulkItem → Nat → Nat → List (BulkItem × String) → List BulkEvent → Nat →
    BulkResult × List BulkEvent
  | [], _i, completed, failed, events, _t =>
      (⟨completed, failed, false⟩, events ++ [⟨completed, n, none, .done⟩])
  | item :: rest, i, completed, failed, events, t =>
      if cancelHit cancelAt t then
        (⟨completed, failed, true⟩, events ++ [⟨completed, n, none, .cancelled⟩])
      else if cancelHit cancelAt (t + 1) then
        (⟨completed, failed, true⟩, events ++ [⟨completed, n, none, .cancelled⟩])
      else
        match processItem n cancelAt item completed failed events t with
        | (completed2, failed2, events2, t2) =>
          if i < n - 1 then
            if cancelHit cancelAt t2 then
              bulkRemoveGo n cancelAt rest (i + 1) completed2 failed2 events2 (t2 + 1)
            else if (i + 1) % RATE_batchSize == 0 then
              bulkRemoveGo n cancelAt rest (i + 1) completed2 failed2
                (events2 ++ [⟨completed2, n, none, .batch_pause⟩]) (t2 + 1)
            else
              bulkRemoveGo n cancelAt rest (i + 1) completed2 failed2 events2 (t2 + 1)
          else
            bulkRemoveGo n cancelAt rest (i + 1) completed2 failed2 events2 t2

/-- `bulkRemove(connections, sendProgress)` (lines 596-661): resets the
flags, runs the loop, and ends with a terminal `done` report when it was
not cancelled.  Returns the `BulkResult` and the progress-event trace. -/
def bulkRemove (items : List BulkItem) (cancelAt : Option Nat) :
    BulkResult × List BulkEvent :=
  bulkRemoveGo items.length cancelAt items 0 0 [] [] 0

/-- The expected event trace of a run whose every attempt succeeds,
starting at item index `i` with `c` items already completed: `removing`
then `removed` per item, a `batch_pause` between items at batch
boundaries, and a single terminal `done`. -/
def okEventsFrom (n : Nat) : List BulkItem → Nat → Nat → List BulkEvent
  | [], _i, c => [⟨c, n, none, .done⟩]
  | item :: rest, i, c =>
    [⟨c, n, some item.name, .removing⟩, ⟨c + 1, n, some item.name, .removed⟩]
    ++ (if i < n - 1 && (i + 1) % RATE_batchSize == 0 then
          [⟨c + 1, n, none, .batch_pause⟩] else [])
    ++ okEventsFrom n rest (i + 1) (c + 1)

/-! ## Concrete inputs used by witnesses and counterexamples -/

/-- Twelve connections whose every removal attempt succeeds. -/
def w12 : List BulkItem :=
  ["p1", "p2", "p3", "p4", "p5", "p6", "p7", "p8", "p9", "p10", "p11", "p12"].map
    (fun s => ⟨s, RemoveResult.ok, RemoveResult.ok⟩)

/-- An item whose first attempt is throttled and whose retry succeeds. -/
def itemRL : BulkItem := ⟨"Alice", RemoveResult.rateLimited, RemoveResult.ok⟩

/-- A single-item input whose removal hits a 429, such that cancellation is
raised while the backoff sleep is in progress (read point 2 is the
post-backoff check of the rate-limit branch of the first item). -/
def cex9items : List BulkItem := [⟨"Avery", RemoveResult.rateLimited, RemoveResult.ok⟩]

/-- Page-zero responses under which only the last catalog entry is
working: the earlier entries return valid but empty pages with total 0. -/
def oracle7 (c : EPConfig) : FetchOutcome :=
  if c.name == "legacy" then .ok 2 2 else .ok 0 0

/-- A record lacking `connectionUrn` but carrying a `publicIdentifier`. -/
def rec8 : RemovalRecord := ⟨"Jordan", "", "jane-doe", ""⟩

/-- Removal responses that always fail with HTTP 500. -/
def resp8 : RemovalRequest → RespOutcome := fun _ => .httpStatus 500

/-- An included entity carrying only an `entityUrn` (no name, no type tag),
so that parse strategies 1 and 2 both yield nothing. -/
def dupIncluded : Json := .arr [.obj [("entityUrn", .str "urn:li:fsd_profile:u1")]]

/-- A result element carrying only a member reference to that entity. -/
def dupElem : Json := .obj [("connectedMember", .str "urn:li:fsd_profile:u1")]

/-- A response whose `elements` lists the same element twice. -/
def dupJson : Json := .obj [("included", dupIncluded), ("elements", .arr [dupElem, dupElem])]

/-- The contact record strategy 3 builds from `dupElem` — produced twice. -/
def dupContact : Contact :=
  { firstName := .str "", lastName := .str "", name := "", headline := .str ""
    publicIdentifier := .str "", profileUrl := ""
    entityUrn := .str "urn:li:fsd_profile:u1"
    connectionUrn := .str "urn:li:fsd_profile:u1"
    connectedAt := .null, profilePicture := "" }

/-- The profile entity for the C10 witness. -/
def profile10 : Json := .obj [("entityUrn", .str "urn:li:fsd_profile:u1")]

/-- An element that both references `profile10` and carries a name. -/
def elem10 : Json :=
  .obj [("connectedMember", .str "urn:li:fsd_profile:u1"), ("firstName", .str "Ann")]

/-- The entity map built from `dupIncluded`. -/
def map10 : List (Json × Json) := [(.str "urn:li:fsd_profile:u1", profile10)]

/-! ## Theorems -/

theorem okEventsFrom_countP_pause (n : Nat) (rest : List BulkItem) :
    ∀ i c : Nat,
      (okEventsFrom n rest i c).countP (fun e => e.status == BulkStatus.batch_pause)
        = ((List.range' (i + 1) rest.length).filter
            (fun j => decide (j < n) && (j % RATE_batchSize == 0))).length := by
  induction rest with
  | nil => intro i c; simp [okEventsFrom]
  | cons item rest ih =>
    intro i c
    rw [okEventsFrom]
    simp only [List.length_cons]
    rw [List.range'_succ]
    by_cases h2 : (i + 1) % RATE_batchSize = 0
    · by_cases h1 : i < n - 1
      · have h1' : i + 1 < n := by omega
        simp [List.countP_append, List.countP_cons, h1, h2, h1', ih]
      · have h1' : ¬(i + 1 < n) := by omega
        simp [List.countP_append, List.countP_cons, h1, h2, h1', ih]
    · simp [List.countP_append, List.countP_cons, h2, ih]

theorem range'_mod_count (m : Nat) :
    ((List.range' 1 m).filter (fun j => j % RATE_batchSize == 0)).length
      = m / RATE_batchSize := by
  induction m with
  | zero => simp
  | succ k ih =>
    rw [List.range'_concat, List.filter_append, List.length_append, ih]
    have hk : 1 + 1 * k = k + 1 := by omega
    rw [hk, Nat.succ_div]
    by_cases h : (k + 1) % RATE_batchSize = 0
    · have hd : RATE_batchSize ∣ k + 1 := Nat.dvd_iff_mod_eq_zero.mpr h
      simp [h, hd]
    · have hd : ¬ RATE_batchSize ∣ k + 1 := fun d => h (Nat.dvd_iff_mod_eq_zero.mp d)
      simp [h, hd]

theorem range'_filter_pause_count (n : Nat) :
    ((List.range' 1 n).filter (fun j => decide (j < n) && (j % RATE_batchSize == 0))).length
      = (n - 1) / RATE_batchSize := by
  cases n with
  | zero => simp
  | succ m =>
    rw [List.range'_concat, List.filter_append]
    have hdrop : (List.range' 1 m).filter
          (fun j => decide (j < m + 1) && (j % RATE_batchSize == 0))
        = (List.range' 1 m).filter (fun j => j % RATE_batchSize == 0) := by
      apply List.filter_congr
      intro x hx
      have hx2 := List.mem_range'_1.mp hx
      have hx3 : x < m + 1 := by omega
      simp [hx3]
    have hlast : ¬ (1 + 1 * m < m + 1) := by omega
    simp [hdrop, hlast, range'_mod_count]
    intro hlt
    exact absurd hlt (by omega)

theorem okEventsFrom_countP_done (n : Nat) (rest : List BulkItem) :
    ∀ i c : Nat,
      (okEventsFrom n rest i c).countP (fun e => e.status == BulkStatus.done) = 1 := by
  induction rest with
  | nil => intro i c; simp [okEventsFrom]
  | cons item rest ih =>
    intro i c
    rw [okEventsFrom]
    by_cases hb : (decide (i < n - 1) && ((i + 1) % RATE_batchSize == 0)) = true
    · simp [List.countP_append, List.countP_cons, hb, ih]
    · simp [List.countP_append, List.countP_cons, hb, ih]

theorem bulkRemoveGo_all_ok (n : Nat) (rest : List BulkItem) :
    ∀ (i c : Nat) (failed : List (BulkItem × String)) (events : List BulkEvent) (t : Nat),
      (∀ it ∈ rest, it.firstTry = RemoveResult.ok) →
      bulkRemoveGo n none rest i c failed events t =
        (⟨c + rest.length, failed, false⟩, events ++ okEventsFrom n rest i c) := by
  induction rest with
  | nil =>
    intro i c failed events t _h
    simp [bulkRemoveGo, okEventsFrom]
  | cons item rest ih =>
    intro i c failed events t h
    have hf : item.firstTry = RemoveResult.ok := h item (by simp)
    have hr : ∀ it ∈ rest, it.firstTry = RemoveResult.ok := by
      intro it hit
      exact h it (by simp [hit])
    rw [bulkRemoveGo]
    by_cases h1 : i < n - 1
    · by_cases h2 : (i + 1) % RATE_batchSize = 0
      · simp [cancelHit, processItem, hf, h1, h2, ih _ _ _ _ _ hr, okEventsFrom,
              List.append_assoc]
        omega
      · simp [cancelHit, processItem, hf, h1, h2, ih _ _ _ _ _ hr, okEventsFrom,
              List.append_assoc]
        omega
    · simp [cancelHit, processItem, hf, h1, ih _ _ _ _ _ hr, okEventsFrom,
            List.append_assoc]
      omega

/-- C1: for an input of N items where every removal attempt succeeds and no
pause/cancel signal is raised, `bulkRemove` returns
`completed == N`, `failed == []`, `cancelled == false`; its progress trace
is exactly a `removing` then a `removed` report per item interleaved with
`batch_pause` reports only between items at batch boundaries
(`okEventsFrom`), containing exactly `(N - 1) / batchSize` `batch_pause`
reports and a single terminal `done` report. -/
theorem c1_scheduler_ok_run (items : List BulkItem)
    (h : ∀ it ∈ items, it.firstTry = RemoveResult.ok) :
    bulkRemove items none
      = (⟨items.length, [], false⟩, okEventsFrom items.length items 0 0)
    ∧ (okEventsFrom items.length items 0 0).countP
        (fun e => e.status == BulkStatus.batch_pause)
        = (items.length - 1) / RATE_batchSize
    ∧ (okEventsFrom items.length items 0 0).countP
        (fun e => e.status == BulkStatus.done) = 1 := by
  refine ⟨?_, ?_, ?_⟩
  · have := bulkRemoveGo_all_ok items.length items 0 0 [] [] 0 h
    simpa [bulkRemove] using this
  · rw [okEventsFrom_countP_pause]
    simpa using range'_filter_pause_count items.length
  · exact okEventsFrom_countP_done items.length items 0 0

/-- Witness for C1 at a concrete 12-item all-success input. -/
theorem c1_scheduler_ok_run_witness :
    (∀ it ∈ w12, it.firstTry = RemoveResult.ok)
    ∧ bulkRemove w12 none = (⟨12, [], false⟩, okEventsFrom 12 w12 0 0) :=
  ⟨by decide, (c1_scheduler_ok_run w12 (by decide)).1⟩

/-- C2: for an item whose first removal attempt throws `RATE_LIMITED`, when
cancellation is not observed at the post-backoff check, the scheduler emits
`rate_limited` after `removing`, performs exactly one retry: a successful
retry increments `completed` exactly once with the `rate_limited` report
preceding the `removed` report; a failed retry (including a second 429,
whose message is `RATE_LIMITED`) appends the item to `failed` with the
retry's error reason and emits `failed`; in every case no further retry
happens — the item contributes exactly one step to the run. -/
theorem c2_rate_limited_single_retry (n : Nat) (cancelAt : Option Nat) (item : BulkItem)
    (completed : Nat) (failed : List (BulkItem × String)) (events : List BulkEvent) (t : Nat)
    (hfirst : item.firstTry = RemoveResult.rateLimited)
    (hnc : cancelHit cancelAt (t + 2) = false) :
    processItem n cancelAt item completed failed events t =
      match item.retryTry with
      | .ok =>
          (completed + 1, failed,
           events ++ [⟨completed, n, some item.name, .removing⟩,
                      ⟨completed, n, some item.name, .rate_limited⟩,
                      ⟨completed + 1, n, some item.name, .removed⟩], t + 3)
      | .rateLimited =>
          (completed, failed ++ [(item, "RATE_LIMITED")],
           events ++ [⟨completed, n, some item.name, .removing⟩,
                      ⟨completed, n, some item.name, .rate_limited⟩,
                      ⟨completed, n, some item.name, .failed⟩], t + 3)
      | .err r =>
          (completed, failed ++ [(item, r)],
           events ++ [⟨completed, n, some item.name, .removing⟩,
                      ⟨completed, n, some item.name, .rate_limited⟩,
                      ⟨completed, n, some item.name, .failed⟩], t + 3) := by
  cases hretry : item.retryTry <;>
    simp [processItem, hfirst, hretry, hnc, List.append_assoc]

/-- Witness for C2 at a concrete throttled item with a successful retry. -/
theorem c2_rate_limited_single_retry_witness :
    itemRL.firstTry = RemoveResult.rateLimited
    ∧ cancelHit none 2 = false
    ∧ processItem 1 none itemRL 0 [] [] 0 =
        (1, [],
         [⟨0, 1, some "Alice", .removing⟩,
          ⟨0, 1, some "Alice", .rate_limited⟩,
          ⟨1, 1, some "Alice", .removed⟩], 3) :=
  ⟨by decide, by decide, c2_rate_limited_single_retry 1 none itemRL 0 [] [] 0 rfl rfl⟩

theorem bulkRemoveGo_none_accounting (n : Nat) (rest : List BulkItem) :
    ∀ (i c : Nat) (failed : List (BulkItem × String)) (events : List BulkEvent) (t : Nat),
      (bulkRemoveGo n none rest i c failed events t).1.cancelled = false
      ∧ (bulkRemoveGo n none rest i c failed events t).1.completed
          + (bulkRemoveGo n none rest i c failed events t).1.failed.length
        = c + failed.length + rest.length := by
  induction rest with
  | nil =>
    intro i c failed events t
    simp [bulkRemoveGo]
  | cons item rest ih =>
    intro i c failed events t
    rw [bulkRemoveGo]
    cases hf : item.firstTry with
    | ok =>
      by_cases h1 : i < n - 1
      · by_cases h2 : (i + 1) % RATE_batchSize = 0
        · have := ih (i + 1) (c + 1) failed
          simp [cancelHit, processItem, hf, h1, h2, this]
          omega
        · have := ih (i + 1) (c + 1) failed
          simp [cancelHit, processItem, hf, h1, h2, this]
          omega
      · have := ih (i + 1) (c + 1) failed
        simp [cancelHit, processItem, hf, h1, this]
        omega
    | err r =>
      by_cases h1 : i < n - 1
      · by_cases h2 : (i + 1) % RATE_batchSize = 0
        · have := ih (i + 1) c (failed ++ [(item, r)])
          simp [cancelHit, processItem, hf, h1, h2, this]
          omega
        · have := ih (i + 1) c (failed ++ [(item, r)])
          simp [cancelHit, processItem, hf, h1, h2, this]
          omega
      · have := ih (i + 1) c (failed ++ [(item, r)])
        simp [cancelHit, processItem, hf, h1, this]
        omega
    | rateLimited =>
      cases hretry : item.retryTry with
      | ok =>
        by_cases h1 : i < n - 1
        · by_cases h2 : (i + 1) % RATE_batchSize = 0
          · have := ih (i + 1) (c + 1) failed
            simp [cancelHit, processItem, hf, hretry, h1, h2, this]
            omega
          · have := ih (i + 1) (c + 1) failed
            simp [cancelHit, processItem, hf, hretry, h1, h2, this]
            omega
        · have := ih (i + 1) (c + 1) failed
          simp [cancelHit, processItem, hf, hretry, h1, this]
          omega
      | rateLimited =>
        by_cases h1 : i < n - 1
        · by_cases h2 : (i + 1) % RATE_batchSize = 0
          · have := ih (i + 1) c (failed ++ [(item, "RATE_LIMITED")])
            simp [cancelHit, processItem, hf, hretry, h1, h2, this]
            omega
          · have := ih (i + 1) c (failed ++ [(item, "RATE_LIMITED")])
            simp [cancelHit, processItem, hf, hretry, h1, h2, this]
            omega
        · have := ih (i + 1) c (failed ++ [(item, "RATE_LIMITED")])
          simp [cancelHit, processItem, hf, hretry, h1, this]
          omega
      | err r =>
        by_cases h1 : i < n - 1
        · by_cases h2 : (i + 1) % RATE_batchSize = 0
          · have := ih (i + 1) c (failed ++ [(item, r)])
            simp [cancelHit, processItem, hf, hretry, h1, h2, this]
            omega
          · have := ih (i + 1) c (failed ++ [(item, r)])
            simp [cancelHit, processItem, hf, hretry, h1, h2, this]
            omega
        · have := ih (i + 1) c (failed ++ [(item, r)])
          simp [cancelHit, processItem, hf, hretry, h1, this]
          omega

/-- C9 (amended): when no cancellation signal is raised during the run,
`bulkRemove` returns `cancelled == false` and every item is accounted for
exactly once: `completed + failed.length == items.length`.  (As originally
stated — conditioning only on the *returned* `cancelled == false` — the
claim is false: see the counterexample, where cancellation arrives during
the rate-limit backoff of the final item; the retry is skipped, the loop
ends, and the run reports `done` with `cancelled == false` while the item
is in neither `completed` nor `failed`.) -/
theorem c9_accounting_no_cancel (items : List BulkItem) :
    (bulkRemove items none).1.cancelled = false
    ∧ (bulkRemove items none).1.completed + (bulkRemove items none).1.failed.length
        = items.length := by
  have := bulkRemoveGo_none_accounting items.length items 0 0 [] [] 0
  simpa [bulkRemove] using this

/-- Counterexample to C9 as stated: one throttled item, cancellation raised
during the backoff (observed first at read point 2, the post-backoff
check).  The run returns `cancelled == false` (it ends with `done`), yet
`completed + failed.length = 0 ≠ 1 = items.length`. -/
theorem c9_accounting_counterexample :
    bulkRemove cex9items (some 2) =
      (⟨0, [], false⟩,
       [⟨0, 1, some "Avery", .removing⟩,
        ⟨0, 1, some "Avery", .rate_limited⟩,
        ⟨0, 1, none, .done⟩])
    ∧ (bulkRemove cex9items (some 2)).1.cancelled = false
    ∧ (bulkRemove cex9items (some 2)).1.completed
        + (bulkRemove cex9items (some 2)).1.failed.length ≠ cex9items.length := by
  refine ⟨by decide, by decide, by decide⟩

/-- C4 (amended): the total estimate is initialized to the server-reported
total iff it is nonzero, else to the 10000 placeholder; an estimate that
(still) equals 10000 is replaced by the next nonzero reported total; at
every step where the estimate differs from 10000 it never shrinks, and it
changes only to a larger reported total; and every in-loop progress event
reports the current estimate when it is below 10000 and the
unknown-sentinel 0 otherwise.  (As originally stated the claim is false on
two points, see the counterexample: a progress event after the placeholder
is replaced by a real total ≥ 10000 reports the sentinel 0, not the real
total; and an estimate that passes through the value 10000 — which the
code cannot distinguish from its own placeholder — can later shrink.) -/
theorem c4_total_estimate_policy :
    (∀ ft : Nat, (ft > 0 → initialTotal ft = ft) ∧ (ft = 0 → initialTotal ft = 10000))
    ∧ (∀ t : Nat, t > 0 → updateTotal 10000 t = t)
    ∧ (∀ tot t : Nat, tot ≠ 10000 → tot ≤ updateTotal tot t)
    ∧ (∀ tot t : Nat, tot < updateTotal tot t → updateTotal tot t = t)
    ∧ (∀ (s : PageState) (count t : Nat),
        (pageStep s count t).1.events
          = s.events ++ [progressOf (s.fetched + count) (updateTotal s.total t)])
    ∧ (∀ f tot : Nat, tot < 10000 → progressOf f tot = (f, tot))
    ∧ (∀ f tot : Nat, 10000 ≤ tot → progressOf f tot = (f, 0)) := by
  refine ⟨?_, ?_, ?_, ?_, ?_, ?_, ?_⟩
  · intro ft
    constructor
    · intro h; simp [initialTotal, h]
    · intro h; simp [initialTotal, h]
  · intro t ht
    simp only [updateTotal, Bool.and_eq_true, decide_eq_true_eq, beq_iff_eq]
    split_ifs <;> omega
  · intro tot t htot
    simp only [updateTotal, Bool.and_eq_true, decide_eq_true_eq, beq_iff_eq]
    split_ifs <;> omega
  · intro tot t hlt
    revert hlt
    simp only [updateTotal, Bool.and_eq_true, decide_eq_true_eq, beq_iff_eq]
    split_ifs <;> omega
  · intro s count t
    by_cases h : count = 0 <;> simp [pageStep, h]
  · intro f tot h
    simp [progressOf]
    omega
  · intro f tot h
    simp [progressOf, h]

/-- Witness for C4 at concrete totals. -/
theorem c4_total_estimate_policy_witness :
    (57 : Nat) > 0 ∧ updateTotal 10000 57 = 57 ∧ (40 : Nat) ≠ 10000 ∧ 40 ≤ updateTotal 40 57 :=
  ⟨by decide, c4_total_estimate_policy.2.1 57 (by decide), by decide,
   c4_total_estimate_policy.2.2.1 40 57 (by decide)⟩

/-- Counterexample to C4 as stated: (i) a first page with total 0 and a
later page reporting total 15000 — the replacement happens, but the
progress event after it reports the sentinel 0, not the real total 15000;
(ii) a real initial total of 57, a later report of 10000 (re-entering the
placeholder value), then a report of 3 — the estimate shrinks from 57
to 3. -/
theorem c4_total_estimate_counterexample :
    (fetchAllConnections 40 0 [.ok 40 15000]).events = [(40, 10000), (80, 0)]
    ∧ (fetchAllConnections 40 0 [.ok 40 15000]).total = 15000
    ∧ (80, (0 : Nat)).2 ≠ 15000
    ∧ (fetchAllConnections 40 57 [.ok 40 10000, .ok 40 3]).total = 3
    ∧ (3 : Nat) < 57 := by
  refine ⟨by decide, by decide, by decide, by decide, by decide⟩

/-- C5: pagination (after a non-empty first page) gives up on empty pages
only at the second consecutive empty page: `pageStep` signals a stop iff
the page is empty and it is the second consecutive one; an empty page
still advances the offset by the page size; a non-empty page resets the
consecutive-empty counter; the loop exits when the offset reaches the
current total estimate; a `null` result or a non-retryable error (the
endpoint stopped responding) stops it, while 429/timeout outcomes retry
the same state; and a single empty page (counter 0) does not stop the
loop — it continues on the advanced state. -/
theorem c5_two_consecutive_empty_pages :
    (∀ (s : PageState) (count t : Nat),
        (pageStep s count t).2 = (decide (count = 0) && decide (2 ≤ s.consecutiveEmpty + 1)))
    ∧ (∀ (s : PageState) (t : Nat),
        (pageStep s 0 t).1.start = s.start + PAGE_SIZE
        ∧ (pageStep s 0 t).1.consecutiveEmpty = s.consecutiveEmpty + 1)
    ∧ (∀ (s : PageState) (count t : Nat), count ≠ 0 →
        (pageStep s count t).1.consecutiveEmpty = 0)
    ∧ (∀ (outcomes : List PageOutcome) (s : PageState), ¬ s.start < s.total →
        pageLoop outcomes s = s)
    ∧ (∀ (outcomes : List PageOutcome) (s : PageState), s.start < s.total →
        pageLoop (.nullResult :: outcomes) s = s
        ∧ pageLoop (.fetchErr :: outcomes) s = s
        ∧ pageLoop (.rateLimited :: outcomes) s = pageLoop outcomes s
        ∧ pageLoop (.timeout :: outcomes) s = pageLoop outcomes s)
    ∧ (∀ (outcomes : List PageOutcome) (s : PageState) (t : Nat),
        s.start < s.total → s.consecutiveEmpty = 0 →
        pageLoop (.ok 0 t :: outcomes) s = pageLoop outcomes (pageStep s 0 t).1)
    ∧ (∀ (fc ft : Nat) (outcomes : List PageOutcome), fc ≠ 0 →
        fetchAllConnections fc ft outcomes = pageLoop outcomes (initialPageState fc ft)) := by
  refine ⟨?_, ?_, ?_, ?_, ?_, ?_, ?_⟩
  · intro s count t
    by_cases h : count = 0 <;> simp [pageStep, h]
  · intro s t
    constructor <;> simp [pageStep]
  · intro s count t h
    simp [pageStep, h]
  · intro outcomes s h
    cases outcomes <;> simp [pageLoop, h]
  · intro outcomes s h
    refine ⟨?_, ?_, ?_, ?_⟩ <;> simp [pageLoop, h]
  · intro outcomes s t h hce
    simp [pageLoop, pageStep, h, hce]
  · intro fc ft outcomes h
    simp [fetchAllConnections, h]

/-- Witness for C5: a single empty page at a state mid-run with counter 0
continues the loop on the advanced state, and a loop at an offset past the
estimate stops. -/
theorem c5_two_consecutive_empty_pages_witness :
    ((40 : Nat) < 200 ∧ (⟨40, 200, 40, 0, []⟩ : PageState).consecutiveEmpty = 0
      ∧ pageLoop [.ok 0 5, .nullResult] ⟨40, 200, 40, 0, []⟩
          = pageLoop [.nullResult] (pageStep ⟨40, 200, 40, 0, []⟩ 0 5).1)
    ∧ (¬ (240 : Nat) < 200 ∧ pageLoop [.ok 40 0] ⟨240, 200, 240, 0, []⟩ = ⟨240, 200, 240, 0, []⟩) :=
  ⟨⟨by decide, rfl,
    c5_two_consecutive_empty_pages.2.2.2.2.2.1 [.nullResult] ⟨40, 200, 40, 0, []⟩ 5 (by decide) rfl⟩,
   by decide,
   c5_two_consecutive_empty_pages.2.2.2.1 [.ok 40 0] ⟨240, 200, 240, 0, []⟩ (by decide)⟩

theorem discoverGo_result (oracle : EPConfig → FetchOutcome) (catalog : List EPConfig) :
    (discoverGo oracle catalog).2 =
      (match catalog.find? (discoverHit oracle) with
       | none => Except.error DiscoverErr.noWorkingEndpoint
       | some c =>
         if isRateLimitedOutcome (oracle c) then Except.error DiscoverErr.rateLimited
         else Except.ok c) := by
  induction catalog with
  | nil => simp [discoverGo]
  | cons c rest ih =>
    cases ho : oracle c with
    | ok n t =>
      by_cases hw : (decide (n > 0) || decide (t > 0)) = true
      · have hhit : discoverHit oracle c = true := by
          simp [discoverHit, isWorkingOutcome, ho, hw]
        simp [discoverGo, ho, hw, List.find?, hhit, isRateLimitedOutcome]
      · have hhit : discoverHit oracle c = false := by
          simp [discoverHit, isWorkingOutcome, isRateLimitedOutcome, ho]
          simpa using hw
        simp [discoverGo, ho, hw, List.find?, hhit, ih]
    | httpFail =>
      have hhit : discoverHit oracle c = false := by
        simp [discoverHit, isWorkingOutcome, isRateLimitedOutcome, ho]
      simp [discoverGo, ho, List.find?, hhit, ih]
    | rateLimited =>
      have hhit : discoverHit oracle c = true := by
        simp [discoverHit, isRateLimitedOutcome, ho]
      simp [discoverGo, ho, List.find?, hhit, isRateLimitedOutcome]
    | netFail =>
      have hhit : discoverHit oracle c = false := by
        simp [discoverHit, isWorkingOutcome, isRateLimitedOutcome, ho]
      simp [discoverGo, ho, List.find?, hhit, ih]

theorem discoverGo_trace (oracle : EPConfig → FetchOutcome) (catalog : List EPConfig) :
    (discoverGo oracle catalog).1 =
      (catalog.takeWhile (fun c => !discoverHit oracle c)).map EPConfig.name
      ++ (match catalog.find? (discoverHit oracle) with
          | none => []
          | some c => [c.name]) := by
  induction catalog with
  | nil => simp [discoverGo]
  | cons c rest ih =>
    cases ho : oracle c with
    | ok n t =>
      by_cases hw : (decide (n > 0) || decide (t > 0)) = true
      · have hhit : discoverHit oracle c = true := by
          simp [discoverHit, isWorkingOutcome, ho, hw]
        simp [discoverGo, ho, hw, List.find?, List.takeWhile, hhit]
      · have hhit : discoverHit oracle c = false := by
          simp [discoverHit, isWorkingOutcome, isRateLimitedOutcome, ho]
          simpa using hw
        simp [discoverGo, ho, hw, List.find?, List.takeWhile, hhit, ih]
    | httpFail =>
      have hhit : discoverHit oracle c = false := by
        simp [discoverHit, isWorkingOutcome, isRateLimitedOutcome, ho]
      simp [discoverGo, ho, List.find?, List.takeWhile, hhit, ih]
    | rateLimited =>
      have hhit : discoverHit oracle c = true := by
        simp [discoverHit, isRateLimitedOutcome, ho]
      simp [discoverGo, ho, List.find?, List.takeWhile, hhit]
    | netFail =>
      have hhit : discoverHit oracle c = false := by
        simp [discoverHit, isWorkingOutcome, isRateLimitedOutcome, ho]
      simp [discoverGo, ho, List.find?, List.takeWhile, hhit, ih]

/-- C6: for every catalog ordering and every assignment of page-zero
responses, discovery returns the first candidate (in catalog order) whose
response is non-error with non-empty records or a nonzero total — so a
valid-but-empty page with total 0 is skipped in favor of a later populated
candidate; a 429 on any candidate reached aborts discovery immediately
(the probe trace ends at the halting candidate, so no later candidate is
tried) and propagates as `RateLimited`; and if no candidate satisfies the
predicate, discovery fails with `NoWorkingEndpoint` after probing the
whole catalog. -/
theorem c6_discovery_first_working (oracle : EPConfig → FetchOutcome)
    (catalog : List EPConfig) :
    (discoverGo oracle catalog).2 =
      (match catalog.find? (discoverHit oracle) with
       | none => Except.error DiscoverErr.noWorkingEndpoint
       | some c =>
         if isRateLimitedOutcome (oracle c) then Except.error DiscoverErr.rateLimited
         else Except.ok c)
    ∧ (discoverGo oracle catalog).1 =
      (catalog.takeWhile (fun c => !discoverHit oracle c)).map EPConfig.name
      ++ (match catalog.find? (discoverHit oracle) with
          | none => []
          | some c => [c.name]) :=
  ⟨discoverGo_result oracle catalog, discoverGo_trace oracle catalog⟩

/-- C7 (amended): running discovery twice in sequence against the same
unchanging responses commits to the same endpoint both times and leaves
the `workingConfig` memo at that endpoint — but the warm invocation does
NOT consult the memo: it re-probes the catalog from the start, issuing
exactly the same probe sequence as the cold run (see the counterexample
for the re-probing the original claim denies). -/
theorem c7_discovery_idempotent (oracle : EPConfig → FetchOutcome)
    (catalog : List EPConfig) :
    (discoverTwice oracle catalog).2.2.1 = (discoverTwice oracle catalog).1
    ∧ (discoverTwice oracle catalog).2.2.2 = (discoverTwice oracle catalog).2.1
    ∧ (∀ c : EPConfig, (discoverTwice oracle catalog).1.2 = .ok c →
        (discoverTwice oracle catalog).2.1 = some c
        ∧ (discoverTwice oracle catalog).2.2.1.2 = .ok c) := by
  refine ⟨rfl, ?_, ?_⟩
  · show (match (discoverGo oracle catalog).2 with
          | .ok c => some c
          | .error _ => (match (discoverGo oracle catalog).2 with
                         | .ok c => some c
                         | .error _ => none)) = _
    cases h : (discoverGo oracle catalog).2 <;> simp [discoverTwice, h]
  · intro c h
    have h2 : (discoverGo oracle catalog).2 = .ok c := h
    exact ⟨by simp [discoverTwice, h2], h⟩

/-- Witness for C7 (amended) at the source catalog with only the last
candidate working. -/
theorem c7_discovery_idempotent_witness :
    (discoverTwice oracle7 ENDPOINT_CONFIGS).1.2
        = Except.ok ⟨"legacy", "https://www.linkedin.com/voyager/api/relationships/connections",
                     [("count", "40"), ("q", "search"), ("sortType", "RECENTLY_ADDED")]⟩
    ∧ (discoverTwice oracle7 ENDPOINT_CONFIGS).2.1
        = some ⟨"legacy", "https://www.linkedin.com/voyager/api/relationships/connections",
                [("count", "40"), ("q", "search"), ("sortType", "RECENTLY_ADDED")]⟩ :=
  ⟨rfl,
   ((c7_discovery_idempotent oracle7 ENDPOINT_CONFIGS).2.2 _ rfl).1⟩

/-- Counterexample to C7 as stated: with the source catalog and responses
under which only the last candidate works, the warm (second) discovery
invocation probes all five candidates again — its probe trace is not the
single memoized winner the claim asserts. -/
theorem c7_discovery_counterexample :
    (discoverTwice oracle7 ENDPOINT_CONFIGS).2.1
        = some ⟨"legacy", "https://www.linkedin.com/voyager/api/relationships/connections",
                [("count", "40"), ("q", "search"), ("sortType", "RECENTLY_ADDED")]⟩
    ∧ (discoverTwice oracle7 ENDPOINT_CONFIGS).2.2.1.1
        = ["dash-v17", "dash-v16", "dash-v15", "dash-no-decoration", "legacy"]
    ∧ (discoverTwice oracle7 ENDPOINT_CONFIGS).2.2.1.1 ≠ ["legacy"] := by
  refine ⟨by decide, by decide, by decide⟩

theorem removeConnectionGo_requests (responses : RemovalRequest → RespOutcome)
    (conn : RemovalRecord) (l : List Nat) :
    ∀ req ∈ (removeConnectionGo responses conn l).1,
      ∃ s ∈ l, tryRemovalStrategy s conn = some req := by
  induction l with
  | nil => simp [removeConnectionGo]
  | cons s rest ih =>
    intro req hreq
    rw [removeConnectionGo] at hreq
    cases hstrat : tryRemovalStrategy s conn with
    | none =>
      simp only [hstrat] at hreq
      obtain ⟨s2, hs2, h2⟩ := ih req hreq
      exact ⟨s2, by simp [hs2], h2⟩
    | some r =>
      simp only [hstrat] at hreq
      cases hresp : responses r with
      | httpStatus code =>
        simp only [hresp] at hreq
        by_cases hsucc : (decide (200 ≤ code) && decide (code < 300)) = true
        · simp [hsucc] at hreq
          exact ⟨s, by simp, by rw [hstrat, hreq]⟩
        · by_cases h429 : (code == 429) = true
          · simp [hsucc, h429] at hreq
            exact ⟨s, by simp, by rw [hstrat, hreq]⟩
          · simp [hsucc, h429] at hreq
            rcases hreq with h | h
            · exact ⟨s, by simp, by rw [hstrat, h]⟩
            · obtain ⟨s2, hs2, h2⟩ := ih req h
              exact ⟨s2, by simp [hs2], h2⟩
      | netFail =>
        simp only [hresp] at hreq
        simp at hreq
        rcases hreq with h | h
        · exact ⟨s, by simp, by rw [hstrat, h]⟩
        · obtain ⟨s2, hs2, h2⟩ := ih req h
          exact ⟨s2, by simp [hs2], h2⟩

theorem tryRemovalStrategy_noUrn (conn : RemovalRecord)
    (hurn : conn.connectionUrn = "") :
    ∀ (s : Nat) (req : RemovalRequest), tryRemovalStrategy s conn = some req →
      req = RemovalRequest.profileActionsDisconnect conn.publicIdentifier := by
  intro s req h
  rcases s with _ | _ | _ | _ | _ | _ | s
  · simp [tryRemovalStrategy] at h
  · rw [tryRemovalStrategy] at h
    split_ifs at h
    exact (Option.some.inj h).symm
  · simp [tryRemovalStrategy, hurn] at h
  · simp [tryRemovalStrategy, hurn] at h
  · simp [tryRemovalStrategy, hurn] at h
  · simp [tryRemovalStrategy, hurn] at h
  · simp [tryRemovalStrategy] at h

/-- C8: for a record lacking `connectionUrn` but carrying a
`publicIdentifier`, every strategy that requires the `connectionUrn`
(2, 3, 4, 5) is not applicable (`tryRemovalStrategy` returns `null`,
issuing no request); strategy 1 sends the public slug; for any memoized
strategy order and any responses, every request `removeConnection`
actually issues is the strategy-1 request carrying the record's public
identifier; and conversely a strategy requiring the public slug is skipped
entirely for a record lacking one. -/
theorem c8_strategy_gating (conn : RemovalRecord) (cached : Option Nat)
    (responses : RemovalRequest → RespOutcome)
    (hurn : conn.connectionUrn = "") (hpub : conn.publicIdentifier ≠ "") :
    (tryRemovalStrategy 2 conn = none ∧ tryRemovalStrategy 3 conn = none
      ∧ tryRemovalStrategy 4 conn = none ∧ tryRemovalStrategy 5 conn = none)
    ∧ tryRemovalStrategy 1 conn
        = some (RemovalRequest.profileActionsDisconnect conn.publicIdentifier)
    ∧ (∀ req ∈ (removeConnection cached responses conn).1,
        req = RemovalRequest.profileActionsDisconnect conn.publicIdentifier)
    ∧ (∀ c2 : RemovalRecord, c2.publicIdentifier = "" → tryRemovalStrategy 1 c2 = none) := by
  refine ⟨⟨?_, ?_, ?_, ?_⟩, ?_, ?_, ?_⟩
  · simp [tryRemovalStrategy, hurn]
  · simp [tryRemovalStrategy, hurn]
  · simp [tryRemovalStrategy, hurn]
  · simp [tryRemovalStrategy, hurn]
  · simp [tryRemovalStrategy, hpub]
  · intro req hreq
    obtain ⟨s, _hs, hsome⟩ :=
      removeConnectionGo_requests responses conn (strategyOrder cached) req hreq
    exact tryRemovalStrategy_noUrn conn hurn s req hsome
  · intro c2 h2
    simp [tryRemovalStrategy, h2]

/-- Witness for C8 at a concrete slug-only record. -/
theorem c8_strategy_gating_witness :
    rec8.connectionUrn = "" ∧ rec8.publicIdentifier ≠ ""
    ∧ tryRemovalStrategy 2 rec8 = none
    ∧ tryRemovalStrategy 1 rec8 = some (RemovalRequest.profileActionsDisconnect "jane-doe") :=
  ⟨rfl, by decide, (c8_strategy_gating rec8 (some 3) resp8 rfl (by decide)).1.1,
   (c8_strategy_gating rec8 (some 3) resp8 rfl (by decide)).2.1⟩

/-- C3 (the code violates its specified contract): the parser contract says
`parse` never throws and returns the empty sequence on total failure, for
every input including `null` and `undefined` — but
`parseConnectionsResponse(null)` (and `undefined`) throws a `TypeError`
at its very first member access `json.included`. -/
theorem c3_parse_null_throws :
    parseConnectionsResponse Json.null = .error .typeError
    ∧ parseConnectionsResponse Json.undefined = .error .typeError :=
  ⟨rfl, rfl⟩

theorem exceptBind_ok {ε α β : Type} (a : α) (f : α → Except ε β) :
    (Except.ok a : Except ε α) >>= f = f a := rfl

theorem exceptBind_error {ε α β : Type} (e : ε) (f : α → Except ε β) :
    (Except.error e : Except ε α) >>= f = Except.error e := rfl

/-- C10: in parse strategy 3, an element object whose member reference is
truthy and resolves (via the entity map) to a profile, and which itself
carries a truthy `firstName` or `lastName`, contributes exactly the two
records of the two push sites — the member-reference record followed by
the inline-profile record; and the strategy deduplicates nothing: on a
response whose `elements` lists the same member reference twice, the full
parser returns the identical contact record twice. -/
theorem c10_strategy3_two_records_no_dedup (fs : List (String × Json))
    (entityMap : List (Json × Json)) (profile mr mu : Json)
    (hmr : elemMemberRef (Json.obj fs) = .ok mr)
    (hmrt : truthy mr = true)
    (hmu : memberUrnOf mr = .ok mu)
    (hlook : mapGet entityMap mu = some profile)
    (hname : (truthy (findField fs "firstName") || truthy (findField fs "lastName")) = true) :
    elementContacts entityMap (Json.obj fs)
      = (mkElemProfileContact profile (Json.obj fs)).bind (fun a =>
          (mkElemSelfContact (Json.obj fs)).bind (fun b => pure [a, b]))
    ∧ parseConnectionsResponse dupJson = .ok [dupContact, dupContact] := by
  constructor
  · have hiff : truthy (findField fs "firstName") = true
        ∨ truthy (findField fs "lastName") = true := by
      simpa using hname
    cases hpc : mkElemProfileContact profile (Json.obj fs) with
    | error e =>
      simp [elementContacts, elementObjContacts, hmr, exceptBind_ok, exceptBind_error, hmrt,
            hmu, hlook, getField, hiff, hpc, Except.map_ok, Except.map_error, Except.bind,
            pure, Except.pure]
    | ok a =>
      cases hsc : mkElemSelfContact (Json.obj fs) with
      | error e =>
        simp [elementContacts, elementObjContacts, hmr, exceptBind_ok, exceptBind_error, hmrt,
              hmu, hlook, getField, hiff, hpc, hsc, Except.map_ok, Except.map_error, Except.bind,
              pure, Except.pure]
      | ok b =>
        simp [elementContacts, elementObjContacts, hmr, exceptBind_ok, exceptBind_error, hmrt,
              hmu, hlook, getField, hiff, hpc, hsc, Except.map_ok, Except.map_error, Except.bind,
              pure, Except.pure]
  · rfl

/-- Witness for C10 at the concrete duplicate-producing element. -/
theorem c10_strategy3_two_records_no_dedup_witness :
    elementContacts map10 elem10
      = (mkElemProfileContact profile10 elem10).bind (fun a =>
          (mkElemSelfContact elem10).bind (fun b => pure [a, b])) :=
  (c10_strategy3_two_records_no_dedup
    [("connectedMember", Json.str "urn:li:fsd_profile:u1"), ("firstName", Json.str "Ann")]
    map10 profile10 (Json.str "urn:li:fsd_profile:u1") (Json.str "urn:li:fsd_profile:u1")
    rfl rfl rfl rfl rfl).1
